import Mathlib

/-!
Verification of the resilient payment-dispatch engine of rinha-backend-2025.

Shallow embedding of the core services:
* `storePayment` / `getPaymentSummary` — src/src/services/databaseService.js
* `CircuitBreaker` — src/unnamed/part_010 (services/circuitBreaker.js)
* `RetryService` wiring — src/unnamed/part_004 (services/retryService.js)
* `PaymentService.processPayment` — src/src/services/paymentService.js and
  src/unnamed/part_007 (the audited variant)
* `ConsistencyService.verifyCorrelationIdFormat` and the summary checks —
  src/unnamed/part_005 (services/consistencyService.js)
* `HealthCheckService.getProcessorHealth` — src/src/services/healthCheckService.js

JS numbers holding money amounts are modelled as rationals, epoch milliseconds
as naturals, and JS exceptions as `Except String`.
-/

/-! ## Ledger store (databaseService.js) -/

/-- One row of the `payments` table (schema in the repo's SQL init script):
`correlation_id` unique, `amount DECIMAL(10,2)`, `processor_type`,
`requested_at`, `status` (storePayment always inserts `'processed'`). -/
structure PaymentRow where
  correlationId : String
  amount : ℚ
  processorType : String
  requestedAt : Nat
  status : String
  deriving Repr, DecidableEq

/-- Number of ledger rows carrying a given correlation id. -/
def countCid (ledger : List PaymentRow) (cid : String) : Nat :=
  (ledger.filter (fun r => r.correlationId = cid)).length

/-- Postgres semantics of `INSERT INTO payments ... VALUES ...` on a table with
a UNIQUE constraint on `correlation_id`.  When `onConflictDoNothing` is false a
conflicting insert raises a uniqueness-violation error; when it is true
(the `ON CONFLICT (correlation_id) DO NOTHING` clause used by the code) the
conflicting insert is a silent no-op and `RETURNING id` yields no row. -/
def pgInsertPayment (onConflictDoNothing : Bool) (ledger : List PaymentRow)
    (cid : String) (amount : ℚ) (processorType : String) (requestedAt : Nat) :
    Except String (List PaymentRow × Option Nat) :=
  if ledger.any (fun r => r.correlationId = cid) then
    if onConflictDoNothing then
      Except.ok (ledger, none)
    else
      Except.error "duplicate key value violates unique constraint"
  else
    Except.ok
      (ledger ++ [⟨cid, amount, processorType, requestedAt, "processed"⟩],
       some (ledger.length + 1))

/-- `DatabaseService.storePayment` (databaseService.js lines 155-187): runs the
insert with `ON CONFLICT (correlation_id) DO NOTHING` and returns
`result.rows[0]?.id` (so `none` on conflict).  The JS only rethrows transport
errors from the pool; the query itself cannot fail on a duplicate id. -/
def storePayment (ledger : List PaymentRow) (cid : String) (amount : ℚ)
    (processorType : String) (requestedAt : Nat) :
    Except String (List PaymentRow × Option Nat) :=
  pgInsertPayment true ledger cid amount processorType requestedAt

/-- The ledger left behind by `storePayment` (the call never errors, see
`storePayment_never_errors`). -/
def storePaymentLedger (ledger : List PaymentRow) (cid : String) (amount : ℚ)
    (processorType : String) (requestedAt : Nat) : List PaymentRow :=
  match storePayment ledger cid amount processorType requestedAt with
  | Except.ok (l, _) => l
  | Except.error _ => ledger

/-- Replay of a sequence of submits that all carry the same correlation id
(each call supplies its own amount, processor and timestamp). -/
def storeAll (ledger : List PaymentRow) (cid : String)
    (calls : List (ℚ × String × Nat)) : List PaymentRow :=
  match calls with
  | [] => ledger
  | (a, p, t) :: rest => storeAll (storePaymentLedger ledger cid a p t) cid rest

/-! ## Consistency checks (consistencyService.js, src/unnamed/part_005) -/

/-- Characters matched by the regex class `[0-9a-f]` under the `/i` flag. -/
def hexDigitCI (c : Char) : Bool :=
  ('0' ≤ c && c ≤ '9') || ('a' ≤ c && c ≤ 'f') || ('A' ≤ c && c ≤ 'F')

/-- Characters matched by the class `[1-5]` that the code puts in the
version position of its UUID regex. -/
def versionDigitCode (c : Char) : Bool := '1' ≤ c && c ≤ '5'

/-- Characters matched by the literal `4` that the spec's UUID-v4 regex puts
in the version position (digits are unaffected by `/i`). -/
def versionDigitV4 (c : Char) : Bool := c = '4'

/-- Characters matched by the class `[89ab]` under the `/i` flag. -/
def variantDigitCI (c : Char) : Bool :=
  c = '8' || c = '9' || c = 'a' || c = 'b' || c = 'A' || c = 'B'

/-- Split a character list at every dash, keeping empty groups, so that a
string matches `^g1-g2-g3-g4-g5$` exactly when `splitDash` yields the five
groups (no group can contain a dash). -/
def splitDash : List Char → List (List Char)
  | [] => [[]]
  | c :: rest =>
    match splitDash rest with
    | [] => [[]]
    | g :: gs => if c = '-' then [] :: g :: gs else (c :: g) :: gs

/-- Anchored match of `^[0-9a-f]{8}-[0-9a-f]{4}-V[0-9a-f]{3}-[89ab][0-9a-f]{3}-[0-9a-f]{12}$`
with the `/i` flag, where `V` is the given version-position class. -/
def uuidMatch (version : Char → Bool) (s : String) : Bool :=
  match splitDash s.toList with
  | [g1, g2, g3, g4, g5] =>
    g1.length = 8 && g1.all hexDigitCI &&
    (g2.length = 4 && g2.all hexDigitCI) &&
    (match g3 with
     | v :: r => version v && (r.length = 3 && r.all hexDigitCI)
     | [] => false) &&
    (match g4 with
     | w :: r => variantDigitCI w && (r.length = 3 && r.all hexDigitCI)
     | [] => false) &&
    (g5.length = 12 && g5.all hexDigitCI)
  | _ => false

/-- `ConsistencyService.verifyCorrelationIdFormat` (part_005 lines 104-118):
the code's regex is `/^[0-9a-f]{8}-[0-9a-f]{4}-[1-5][0-9a-f]{3}-[89ab][0-9a-f]{3}-[0-9a-f]{12}$/i`,
with `[1-5]` in the version position.  Returns the `result` flag of the check. -/
def verifyCorrelationIdFormat (s : String) : Bool := uuidMatch versionDigitCode s

/-- Modelled from the spec: the UUID v4 regex that §4.9 of the spec claims the
check uses, `^[0-9a-f]{8}-[0-9a-f]{4}-4[0-9a-f]{3}-[89ab][0-9a-f]{3}-[0-9a-f]{12}$`
(case-insensitive), with the literal `4` in the version position. -/
def uuidV4Regex (s : String) : Bool := uuidMatch versionDigitV4 s

/-! ## Circuit breaker (circuitBreaker.js, src/unnamed/part_010) -/

/-- Breaker states: `'CLOSED'`, `'OPEN'`, `'HALF_OPEN'`. -/
inductive BreakerState where
  | closed
  | opened
  | halfOpen
  deriving Repr, DecidableEq

/-- Mutable fields of a `CircuitBreaker` instance plus its configuration.
`lastFailureTime` starts as `null`; `responseTimes` is the bounded list of the
last 100 response times. -/
structure CircuitBreaker where
  failureThreshold : Nat
  timeout : Nat
  state : BreakerState
  failureCount : Nat
  successCount : Nat
  totalRequests : Nat
  lastFailureTime : Option Nat
  responseTimes : List Nat
  deriving Repr, DecidableEq

/-- Constructor state: `state = 'CLOSED'`, counters zero, `lastFailureTime =
null`, empty ring. -/
def CircuitBreaker.init (failureThreshold timeout : Nat) : CircuitBreaker :=
  ⟨failureThreshold, timeout, BreakerState.closed, 0, 0, 0, none, []⟩

/-- The `push` + conditional `shift` that keeps only the last 100 response
times. -/
def pushResponseTime (rts : List Nat) (rt : Nat) : List Nat :=
  let l := rts ++ [rt]
  if l.length > 100 then l.tail else l

/-- `CircuitBreaker.shouldAttemptReset`: false while `lastFailureTime` is
null, else `Date.now() - lastFailureTime >= timeout`. -/
def CircuitBreaker.shouldAttemptReset (cb : CircuitBreaker) (now : Nat) : Bool :=
  match cb.lastFailureTime with
  | none => false
  | some t => now - t ≥ cb.timeout

/-- `CircuitBreaker.onSuccess`: reset `failureCount`, bump `successCount`,
record the latency, and close the breaker when it was half-open. -/
def CircuitBreaker.onSuccess (cb : CircuitBreaker) (rt : Nat) : CircuitBreaker :=
  { cb with
    failureCount := 0
    successCount := cb.successCount + 1
    responseTimes := pushResponseTime cb.responseTimes rt
    state := if cb.state = BreakerState.halfOpen then BreakerState.closed else cb.state }

/-- `CircuitBreaker.onFailure`: bump `failureCount`, stamp `lastFailureTime`,
record the latency, and trip to OPEN once the threshold is reached. -/
def CircuitBreaker.onFailure (cb : CircuitBreaker) (now rt : Nat) : CircuitBreaker :=
  if cb.failureCount + 1 ≥ cb.failureThreshold then
    { cb with
      failureCount := cb.failureCount + 1
      lastFailureTime := some now
      responseTimes := pushResponseTime cb.responseTimes rt
      state := BreakerState.opened }
  else
    { cb with
      failureCount := cb.failureCount + 1
      lastFailureTime := some now
      responseTimes := pushResponseTime cb.responseTimes rt }

/-- The OPEN gate at the top of `execute` (after `totalRequests++`): an OPEN
breaker either moves to HALF_OPEN (reset timeout elapsed) or throws the
`is OPEN` error (`none`) without touching the wrapped operation. -/
def CircuitBreaker.gateOpen (cb : CircuitBreaker) (now : Nat) : Option CircuitBreaker :=
  if cb.state = BreakerState.opened then
    if cb.shouldAttemptReset now then
      some { cb with state := BreakerState.halfOpen }
    else
      none
  else
    some cb

/-- Result of one `execute` call. -/
inductive ExecOutcome where
  | rejected
  | succeeded
  | failedOp
  deriving Repr, DecidableEq

/-- `CircuitBreaker.execute(operation)` (part_010 lines 27-52).  `opOk` is the
outcome the wrapped operation would produce, `rt` its measured duration.
Returns the outcome, whether the wrapped operation was invoked at all, and the
updated breaker. -/
def CircuitBreaker.execute (cb : CircuitBreaker) (now : Nat) (opOk : Bool)
    (rt : Nat) : ExecOutcome × Bool × CircuitBreaker :=
  let cb1 := { cb with totalRequests := cb.totalRequests + 1 }
  match cb1.gateOpen now with
  | none => (ExecOutcome.rejected, false, cb1)
  | some cb2 =>
    if opOk then (ExecOutcome.succeeded, true, cb2.onSuccess rt)
    else (ExecOutcome.failedOp, true, cb2.onFailure now rt)

/-- The breaker state after an `execute` call. -/
def CircuitBreaker.afterExecute (cb : CircuitBreaker) (now : Nat) (opOk : Bool)
    (rt : Nat) : CircuitBreaker :=
  (cb.execute now opOk rt).2.2

/-- The breakers the payment service builds: `failureThreshold: 3`,
`timeout: 30000`. -/
def paymentBreaker : CircuitBreaker := CircuitBreaker.init 3 30000

/-! ## Retry coordinator (retryService.js, src/unnamed/part_004) and its
composition with the breaker (paymentService.js `processWithProcessor`) -/

/-- Index of the first successful attempt in a prospective outcome sequence
(entry `i` is the outcome attempt `i+1` would produce). -/
def firstSuccessIdx : List Bool → Option Nat
  | [] => none
  | b :: bs => if b then some 0 else (firstSuccessIdx bs).map (· + 1)

/-- Number of attempts `executeWithRetry` makes on this outcome sequence:
it stops at the first success, else uses every attempt (`maxRetries + 1`
entries). -/
def retryAttemptsUsed (outcomes : List Bool) : Nat :=
  match firstSuccessIdx outcomes with
  | some i => i + 1
  | none => outcomes.length

/-- Whether `executeWithRetry` ultimately resolves (some attempt succeeds);
otherwise it rethrows the last error. -/
def retrySucceeds (outcomes : List Bool) : Bool := outcomes.any id

/-- `PaymentService.processWithProcessor` (paymentService.js lines 101-115):
`circuitBreaker.execute(() => retryService.retryPayment(..., () => call))` —
the breaker wraps the whole retry loop.  `outcomes` lists the outcome each
retry attempt would produce (one entry per allowed attempt).  Returns the
breaker outcome, the number of attempts the retry layer actually made together
with the number of backoff sleeps, and the updated breaker. -/
def processWithProcessor (cb : CircuitBreaker) (now : Nat) (outcomes : List Bool)
    (rt : Nat) : ExecOutcome × (Nat × Nat) × CircuitBreaker :=
  let step := cb.execute now (retrySucceeds outcomes) rt
  (step.1,
   (if step.2.1 then retryAttemptsUsed outcomes else 0,
    if step.2.1 then retryAttemptsUsed outcomes - 1 else 0),
   step.2.2)

/-! ## The part_007 `retryPayment` wiring (claim about the argument mismatch) -/

/-- A JavaScript value in the position of `retryPayment`'s `operation`
parameter: either `undefined` (a missing argument) or an async function whose
body resolves or rejects. -/
inductive JsVal where
  | undef
  | fn (f : Unit → Except String String)

/-- JS call semantics for `operation()`: invoking `undefined` throws a
TypeError; invoking a function runs its body once.  The second component
counts how many times a real function body ran. -/
def callJs : JsVal → Except String String × Nat
  | JsVal.undef => (Except.error "TypeError: operation is not a function", 0)
  | JsVal.fn f => (f (), 1)

/-- `RetryService.executeWithRetry(operation, context)` (part_004 lines
298-353) with `attemptsLeft` attempts remaining: each attempt runs
`await operation()`; a success returns, a failure on the last attempt is
rethrown, otherwise the loop sleeps and retries.  Returns the final result,
the number of attempts made, and the number of times a real function body
ran. -/
def executeWithRetryAux (operation : JsVal) : Nat → Except String String × Nat × Nat
  | 0 => (Except.error "TypeError: operation is not a function", 0, 0)
  | 1 =>
    let r := callJs operation
    (r.1, 1, r.2)
  | Nat.succ (Nat.succ m) =>
    match callJs operation with
    | (Except.ok v, c) => (Except.ok v, 1, c)
    | (Except.error _, c) =>
      let r := executeWithRetryAux operation (Nat.succ m)
      (r.1, r.2.1 + 1, c + r.2.2)

/-- `executeWithRetry` proper: `maxRetries + 1` attempts. -/
def executeWithRetry (operation : JsVal) (maxRetries : Nat) :
    Except String String × Nat × Nat :=
  executeWithRetryAux operation (maxRetries + 1)

/-- The `retryService.retryPayment(async () => ...)` call in part_007
`processWithProcessor` (lines 362-382): `retryPayment(processorType,
correlationId, amount, requestedAt, operation)` (part_004 lines 372-382)
receives the wrapped closure as its FIRST argument (`processorType`), so its
fifth parameter `operation` is `undefined`, and it runs
`executeWithRetry(undefined, context)` with the service's `maxRetries = 2`.
The wrapped closure only ever appears inside the logging context. -/
def retryPayment007 (_wrapped : Unit → Except String String) :
    Except String String × Nat × Nat :=
  executeWithRetry JsVal.undef 2

/-! ## Dispatcher (PaymentService.processPayment, two variants) -/

/-- Environment of one submit: the `NODE_ENV === "development"` and
`SIMULATE_PAYMENTS === "true"` flags, and the outcome of the breaker+retry
chain on each processor. -/
structure SubmitEnv where
  nodeEnvDevelopment : Bool
  simulatePayments : Bool
  defaultOk : Bool
  fallbackOk : Bool
  deriving Repr, DecidableEq

/-- `PaymentService.processPayment` of src/src/services/paymentService.js
(lines 41-99): default chain, then fallback chain, then — when
`NODE_ENV === "development"` or `SIMULATE_PAYMENTS === "true"` — the simulated
branch, which stores the payment with processor `"default"` ("Assume default
processor") and returns `processor: "default"`; otherwise the submit throws.
Successful chains store with the processor that handled the call
(`callPaymentProcessor` awaits `storePayment` before returning).  Returns the
surfaced result and the ledger after the submit. -/
def processPaymentSrc (env : SubmitEnv) (ledger : List PaymentRow)
    (cid : String) (amount : ℚ) (requestedAt : Nat) :
    Except String String × List PaymentRow :=
  if env.defaultOk then
    (Except.ok "default", storePaymentLedger ledger cid amount "default" requestedAt)
  else if env.fallbackOk then
    (Except.ok "fallback", storePaymentLedger ledger cid amount "fallback" requestedAt)
  else if env.nodeEnvDevelopment || env.simulatePayments then
    (Except.ok "default", storePaymentLedger ledger cid amount "default" requestedAt)
  else
    (Except.error "All payment processors are unavailable", ledger)

/-- `PaymentService.processPayment` of src/unnamed/part_007 (lines 192-360):
`consistencyOk` stands for `verifyPaymentConsistency(...).consistent` (a
failure throws before any processor is tried); then default chain, fallback
chain, and — only when `SIMULATE_PAYMENTS === "true"` — the simulated branch,
which awaits `storePayment(..., "simulated", ...)` and returns
`processor: "simulated"`; otherwise the fallback error is rethrown.  On the
successful chains the `storePayment` is issued by `callPaymentProcessor`
without `await` (fire-and-forget); the ledger shown is the one after that
write lands. -/
def processPayment007 (consistencyOk : Bool) (env : SubmitEnv)
    (ledger : List PaymentRow) (cid : String) (amount : ℚ) (requestedAt : Nat) :
    Except String String × List PaymentRow :=
  if !consistencyOk then
    (Except.error "Payment data consistency check failed", ledger)
  else if env.defaultOk then
    (Except.ok "default", storePaymentLedger ledger cid amount "default" requestedAt)
  else if env.fallbackOk then
    (Except.ok "fallback", storePaymentLedger ledger cid amount "fallback" requestedAt)
  else if env.simulatePayments then
    (Except.ok "simulated", storePaymentLedger ledger cid amount "simulated" requestedAt)
  else
    (Except.error "fallback processor error", ledger)

/-! ## Ordering of effects within one submit (event traces) -/

/-- Observable events of one submit.  `attempt p` marks the
`processWithProcessor` chain against processor `p` (its internal retries stay
inside the chain), `storeStart`/`storeComplete` bracket the `storePayment`
query, `invalidateCache` is `invalidatePaymentCache`, `respond p` is
`processPayment` returning its result to the route handler. -/
inductive Ev where
  | attempt (proc : String)
  | storeStart (proc : String)
  | storeComplete (proc : String)
  | invalidateCache
  | respond (proc : String)
  deriving Repr, DecidableEq

def isAttempt (p : String) : Ev → Bool
  | Ev.attempt q => q = p
  | _ => false

def isStoreStart : Ev → Bool
  | Ev.storeStart _ => true
  | _ => false

def isStoreComplete : Ev → Bool
  | Ev.storeComplete _ => true
  | _ => false

def isRespondOrInvalidate : Ev → Bool
  | Ev.respond _ => true
  | Ev.invalidateCache => true
  | _ => false

/-- Every `p`-event strictly precedes every `q`-event in the trace: after any
`q`-event no `p`-event occurs (the event classes used here are disjoint). -/
def allPrecede (p q : Ev → Bool) : List Ev → Bool
  | [] => true
  | e :: tr =>
    (if q e then tr.all (fun x => !(p x)) && !(p e) else true) && allPrecede p q tr

/-- Event trace of one `processPayment` of the src variant
(src/src/services/paymentService.js): each chain runs in turn; on a
successful chain `callPaymentProcessor` awaits `storePayment`
(`storeStart`/`storeComplete`) before returning, then `processPayment`
returns (`respond`); the development/simulate branch awaits the store with
processor `"default"`; this variant performs no cache invalidation; on total
failure the error propagates and there is no `respond` event. -/
def processPaymentTraceSrc (env : SubmitEnv) : List Ev :=
  if env.defaultOk then
    [Ev.attempt "default", Ev.storeStart "default", Ev.storeComplete "default",
     Ev.respond "default"]
  else if env.fallbackOk then
    [Ev.attempt "default", Ev.attempt "fallback", Ev.storeStart "fallback",
     Ev.storeComplete "fallback", Ev.respond "fallback"]
  else if env.nodeEnvDevelopment || env.simulatePayments then
    [Ev.attempt "default", Ev.attempt "fallback", Ev.storeStart "default",
     Ev.storeComplete "default", Ev.respond "default"]
  else
    [Ev.attempt "default", Ev.attempt "fallback"]

/-- Event trace of one `processPayment` of the part_007 variant: on a
successful chain `callPaymentProcessor` calls `dbOperation()` WITHOUT `await`,
so the write starts (synchronously up to its first await) but its completion
is not ordered before the subsequent `invalidatePaymentCache` and return;
`dbLate` selects between the two admissible schedules (the DB answer arriving
after the response, or before the invalidation).  The simulated branch awaits
its store and performs no invalidation. -/
def processPaymentTrace007 (env : SubmitEnv) (dbLate : Bool) : List Ev :=
  if env.defaultOk then
    Ev.attempt "default" :: Ev.storeStart "default" ::
      (if dbLate then
        [Ev.invalidateCache, Ev.respond "default", Ev.storeComplete "default"]
       else
        [Ev.storeComplete "default", Ev.invalidateCache, Ev.respond "default"])
  else if env.fallbackOk then
    Ev.attempt "default" :: Ev.attempt "fallback" :: Ev.storeStart "fallback" ::
      (if dbLate then
        [Ev.invalidateCache, Ev.respond "fallback", Ev.storeComplete "fallback"]
       else
        [Ev.storeComplete "fallback", Ev.invalidateCache, Ev.respond "fallback"])
  else if env.simulatePayments then
    [Ev.attempt "default", Ev.attempt "fallback", Ev.storeStart "simulated",
     Ev.storeComplete "simulated", Ev.respond "simulated"]
  else
    [Ev.attempt "default", Ev.attempt "fallback"]

/-! ## Summary queries (databaseService.js `getPaymentSummary`) and the
part_007 aggregator -/

/-- One processor's entry of the summary object: `totalRequests` is
`parseInt(count)`, `totalAmount` is `parseFloat(sum)` (JS numbers, so a cached
value may in principle hold anything numeric). -/
structure SummaryEntry where
  totalRequests : Int
  totalAmount : ℚ
  deriving Repr, DecidableEq

/-- The summary object; `sDefault`/`sFallback` model the `"default"` and
`"fallback"` keys, which the code always initializes (rows of other
processor types land under their own extra keys and never touch these two). -/
structure Summary where
  sDefault : SummaryEntry
  sFallback : SummaryEntry
  deriving Repr, DecidableEq

/-- The SQL row filter of `getPaymentSummary`: `status = 'processed'` and the
closed interval `from ≤ requested_at ≤ to`, either bound optional. -/
def summaryRowFilter (fromB toB : Option Nat) (proc : String) (r : PaymentRow) :
    Bool :=
  r.status = "processed" &&
  (match fromB with | none => true | some f => f ≤ r.requestedAt) &&
  (match toB with | none => true | some t => r.requestedAt ≤ t) &&
  r.processorType = proc

/-- COUNT(*) and COALESCE(SUM(amount), 0) for one processor group.  The JS
initializes the entry to zeros and overwrites it from the GROUP BY row; a
group with no rows leaves the zeros, which is exactly the aggregate of the
empty filter. -/
def summaryEntryFor (ledger : List PaymentRow) (fromB toB : Option Nat)
    (proc : String) : SummaryEntry :=
  let rows := ledger.filter (summaryRowFilter fromB toB proc)
  ⟨rows.length, (rows.map (fun r => r.amount)).sum⟩

/-- `DatabaseService.getPaymentSummary` (databaseService.js lines 190-256),
restricted to the two keys the result always carries. -/
def getPaymentSummary (ledger : List PaymentRow) (fromB toB : Option Nat) :
    Summary :=
  ⟨summaryEntryFor ledger fromB toB "default",
   summaryEntryFor ledger fromB toB "fallback"⟩

/-- `ConsistencyService.verifySummaryStructure` (part_005 lines 204-231): both
keys present with numeric `totalRequests`/`totalAmount`.  On the typed model
every `Summary` value has exactly that shape, so the check always passes. -/
def verifySummaryStructure (_s : Summary) : Bool := true

/-- `ConsistencyService.verifySummaryAmounts` (part_005 lines 233-252):
`summary.default.totalAmount >= 0 && summary.fallback.totalAmount >= 0`. -/
def verifySummaryAmounts (s : Summary) : Bool :=
  decide (0 ≤ s.sDefault.totalAmount) && decide (0 ≤ s.sFallback.totalAmount)

/-- `ConsistencyService.verifySummaryCounts` (part_005 lines 254-273). -/
def verifySummaryCounts (s : Summary) : Bool :=
  decide (0 ≤ s.sDefault.totalRequests) && decide (0 ≤ s.sFallback.totalRequests)

/-- `ConsistencyService.verifyDateRange` (part_005 lines 276-312): with both
bounds present, `from ≤ to`; timestamps modelled as epoch numbers always
parse. -/
def verifyDateRange (fromB toB : Option Nat) : Bool :=
  match fromB, toB with
  | some f, some t => decide (f ≤ t)
  | _, _ => true

/-- `ConsistencyService.verifySummaryConsistency` (part_005 lines 59-102):
structure, amounts and counts checks, plus the date-range check when either
bound is present; `consistent` is the conjunction. -/
def verifySummaryConsistency (s : Summary) (fromB toB : Option Nat) : Bool :=
  verifySummaryStructure s && verifySummaryAmounts s && verifySummaryCounts s &&
  (if fromB.isSome || toB.isSome then verifyDateRange fromB toB else true)

/-- `PaymentService.getPaymentSummary` of part_007 (lines 504-564): a cache
hit is returned as-is; on a miss the DB summary is computed, the consistency
check runs, a failure throws `"Summary data consistency check failed"` (the
outer catch logs and rethrows), and only a passing summary is cached and
returned. -/
def getPaymentSummary007 (cache : Option Summary) (ledger : List PaymentRow)
    (fromB toB : Option Nat) : Except String Summary :=
  match cache with
  | some s => Except.ok s
  | none =>
    let s := getPaymentSummary ledger fromB toB
    if verifySummaryConsistency s fromB toB then Except.ok s
    else Except.error "Summary data consistency check failed"

/-! ## Health check service (src/src/services/healthCheckService.js, memory
variant; one processor's slice of the per-processor maps) -/

/-- What one probe of `GET /payments/service-health` yields: a parsed body or
a failure (timeout, transport or HTTP error). -/
inductive ProbeResult where
  | ok (failing : Bool) (minResponseTime : Nat)
  | err (msg : String)
  deriving Repr, DecidableEq

/-- The snapshot `performHealthCheck` builds: the parsed body (or the
`failing: true, minResponseTime: 999999` error synthesis) plus probe duration,
check time and `isHealthy = !failing`. -/
structure Snapshot where
  failing : Bool
  minResponseTime : Nat
  responseTime : Nat
  lastChecked : Nat
  isHealthy : Bool
  deriving Repr, DecidableEq

/-- One processor's slice of the service state: `lastHealthCheck[processor]`
(initialized to 0) and `healthCache.get(processor)`. -/
structure HCState where
  lastHealthCheck : Nat
  healthCache : Option Snapshot
  deriving Repr, DecidableEq

/-- Constructor state: `lastHealthCheck = 0`, empty cache. -/
def HCState.init : HCState := ⟨0, none⟩

/-- One `getProcessorHealth` call: `now` is `Date.now()` at entry,
`completion` the time at which the probe settles and the cache/last-check
fields are updated (`Date.now()` at lines 87/113), `responseTime` the
measured duration and `probe` the probe's outcome. -/
structure HCCall where
  now : Nat
  completion : Nat
  responseTime : Nat
  probe : ProbeResult
  deriving Repr, DecidableEq

/-- The snapshot `performHealthCheck` stores and returns (lines 54-124):
success spreads the body, failure synthesizes the sentinel; both update the
cache and the last-check time. -/
def mkHealthData (p : ProbeResult) (responseTime completedAt : Nat) : Snapshot :=
  match p with
  | ProbeResult.ok f m => ⟨f, m, responseTime, completedAt, !f⟩
  | ProbeResult.err _ => ⟨true, 999999, responseTime, completedAt, false⟩

/-- `HealthCheckService.performHealthCheck`: probe, then update cache and
`lastHealthCheck` (even on failure). -/
def performHealthCheck (c : HCCall) : Snapshot × HCState :=
  let data := mkHealthData c.probe c.responseTime c.completion
  (data, ⟨c.completion, some data⟩)

/-- `HealthCheckService.getProcessorHealth` (lines 34-52): if
`now - lastCheck < healthCheckInterval` (5000 ms) and a cached snapshot
exists, return it; otherwise run `performHealthCheck`.  The last component
records whether a probe ran. -/
def getProcessorHealth (st : HCState) (c : HCCall) : Snapshot × HCState × Bool :=
  if c.now - st.lastHealthCheck < 5000 then
    match st.healthCache with
    | some cached => (cached, st, false)
    | none =>
      let r := performHealthCheck c
      (r.1, r.2, true)
  else
    let r := performHealthCheck c
    (r.1, r.2, true)

/-- The calls of a sequential run on which `performHealthCheck` actually
executed. -/
def probeCalls (st : HCState) : List HCCall → List HCCall
  | [] => []
  | c :: cs =>
    let r := getProcessorHealth st c
    (if r.2.2 then [c] else []) ++ probeCalls r.2.1 cs

/-! ## Theorems -/

theorem storePayment_never_errors (ledger : List PaymentRow) (cid : String)
    (a : ℚ) (p : String) (t : Nat) :
    ∃ v, storePayment ledger cid a p t = Except.ok v := by
  unfold storePayment pgInsertPayment
  by_cases h : ledger.any (fun r => r.correlationId = cid) <;> simp [h]

theorem countCid_any_eq (ledger : List PaymentRow) (cid : String) :
    ledger.any (fun r => r.correlationId = cid) = (countCid ledger cid ≠ 0 : Bool) := by
  induction ledger with
  | nil => simp [countCid]
  | cons r rest ih =>
    by_cases hc : r.correlationId = cid
    · simp [countCid, List.filter_cons, hc]
    · simp only [List.any_cons, countCid, List.filter_cons] at *
      simp [hc, ih, countCid]

theorem storePayment_conflict_keeps_ledger (ledger : List PaymentRow)
    (cid : String) (a : ℚ) (p : String) (t : Nat)
    (h : countCid ledger cid ≠ 0) :
    storePayment ledger cid a p t = Except.ok (ledger, none) := by
  unfold storePayment pgInsertPayment
  rw [countCid_any_eq]
  simp [h]

theorem countCid_append (l₁ l₂ : List PaymentRow) (cid : String) :
    countCid (l₁ ++ l₂) cid = countCid l₁ cid + countCid l₂ cid := by
  simp [countCid, List.filter_append]

theorem storePaymentLedger_eq (ledger : List PaymentRow) (cid : String)
    (a : ℚ) (p : String) (t : Nat) :
    storePaymentLedger ledger cid a p t =
      if countCid ledger cid ≠ 0 then ledger
      else ledger ++ [⟨cid, a, p, t, "processed"⟩] := by
  unfold storePaymentLedger storePayment pgInsertPayment
  rw [countCid_any_eq]
  by_cases hz : countCid ledger cid = 0 <;> simp [hz]

theorem countCid_storePaymentLedger (ledger : List PaymentRow) (cid : String)
    (a : ℚ) (p : String) (t : Nat) (h : countCid ledger cid ≤ 1) :
    countCid (storePaymentLedger ledger cid a p t) cid = 1 := by
  rw [storePaymentLedger_eq]
  by_cases hz : countCid ledger cid = 0
  · rw [if_neg (by simp [hz]), countCid_append, hz]
    simp [countCid]
  · rw [if_pos hz]
    omega

theorem countCid_storeAll (ledger : List PaymentRow) (cid : String)
    (calls : List (ℚ × String × Nat)) (h : countCid ledger cid ≤ 1)
    (hne : calls ≠ [] ∨ countCid ledger cid = 1) :
    countCid (storeAll ledger cid calls) cid = 1 := by
  induction calls generalizing ledger with
  | nil =>
    rcases hne with hne | hone
    · exact absurd rfl hne
    · simpa [storeAll] using hone
  | cons c rest ih =>
    obtain ⟨a, p, t⟩ := c
    have h1 := countCid_storePaymentLedger ledger cid a p t h
    exact ih (storePaymentLedger ledger cid a p t) (by omega) (Or.inr h1)

/-- C1: a submit whose correlation id already has a ledger row returns without
error and leaves the ledger unchanged (the original record wins); the
uniqueness conflict is never surfaced as an error; and any nonempty sequence
of submits with one correlation id leaves exactly one ledger row for it. -/
theorem storePayment_idempotent_claim
    (ledger : List PaymentRow) (cid : String) (a : ℚ) (p : String) (t : Nat)
    (calls : List (ℚ × String × Nat))
    (hdup : countCid ledger cid ≠ 0)
    (huniq : countCid ledger cid ≤ 1)
    (hcalls : calls ≠ []) :
    storePayment ledger cid a p t = Except.ok (ledger, none) ∧
    (∀ l₀ a₀ p₀ t₀, ∃ v, storePayment l₀ cid a₀ p₀ t₀ = Except.ok v) ∧
    countCid (storeAll ledger cid calls) cid = 1 := by
  refine ⟨storePayment_conflict_keeps_ledger ledger cid a p t hdup,
          fun l₀ a₀ p₀ t₀ => storePayment_never_errors l₀ cid a₀ p₀ t₀,
          countCid_storeAll ledger cid calls huniq (Or.inl hcalls)⟩

/-- Concrete instantiation of `storePayment_idempotent_claim`: the ledger
already holds the row for correlation id `c1`, then two more submits for `c1`
arrive. -/
theorem storePayment_idempotent_claim_witness :
    countCid [⟨"c1", 10, "default", 5, "processed"⟩] "c1" ≠ 0 ∧
    countCid [⟨"c1", 10, "default", 5, "processed"⟩] "c1" ≤ 1 ∧
    ([((20 : ℚ), "fallback", 7), ((30 : ℚ), "default", 9)] ≠
      ([] : List (ℚ × String × Nat))) ∧
    (storePayment [⟨"c1", 10, "default", 5, "processed"⟩] "c1" 20 "fallback" 7 =
      Except.ok ([⟨"c1", 10, "default", 5, "processed"⟩], none) ∧
     (∀ l₀ a₀ p₀ t₀, ∃ v, storePayment l₀ "c1" a₀ p₀ t₀ = Except.ok v) ∧
     countCid (storeAll [⟨"c1", 10, "default", 5, "processed"⟩] "c1"
        [((20 : ℚ), "fallback", 7), ((30 : ℚ), "default", 9)]) "c1" = 1) := by
  refine ⟨by decide, by decide, by decide, ?_⟩
  exact storePayment_idempotent_claim
    [⟨"c1", 10, "default", 5, "processed"⟩] "c1" 20 "fallback" 7
    [((20 : ℚ), "fallback", 7), ((30 : ℚ), "default", 9)]
    (by decide) (by decide) (by decide)

/-- C6: the code's correlation-id check accepts the UUID v1 string
`550e8400-e29b-11d4-a716-446655440000` — the very input the repository's own
test (`consistencyService.test.js`, "should reject UUID v1") expects it to
reject — while the spec's v4-only regex rejects it; on a genuine v4 both
agree.  The version class `[1-5]` in the code is the slip. -/
theorem verifyCorrelationIdFormat_accepts_uuid_v1 :
    verifyCorrelationIdFormat "550e8400-e29b-11d4-a716-446655440000" = true ∧
    uuidV4Regex "550e8400-e29b-11d4-a716-446655440000" = false ∧
    verifyCorrelationIdFormat "550e8400-e29b-41d4-a716-446655440000" = true ∧
    uuidV4Regex "550e8400-e29b-41d4-a716-446655440000" = true := by
  decide

/-- C3: for the per-processor breaker (threshold 3, reset timeout 30 s),
starting CLOSED three consecutive failed `execute` calls leave it OPEN; while
OPEN with `now - last_failure < 30000` every `execute` rejects immediately
without invoking the wrapped function and stays OPEN; once 30 s have elapsed
the gate moves the breaker to HALF_OPEN and the function runs; a success in
HALF_OPEN returns the breaker to CLOSED with `failureCount = 0`. -/
theorem circuitBreaker_state_machine_claim
    (n1 n2 n3 r1 r2 r3 : Nat)
    (cb : CircuitBreaker) (now rt t : Nat) (opOk : Bool)
    (hopen : cb.state = BreakerState.opened)
    (hlast : cb.lastFailureTime = some t)
    (hto : cb.timeout = 30000) :
    (((paymentBreaker.afterExecute n1 false r1).afterExecute n2 false r2).afterExecute
        n3 false r3).state = BreakerState.opened ∧
    (now - t < 30000 →
      cb.execute now opOk rt =
        (ExecOutcome.rejected, false, { cb with totalRequests := cb.totalRequests + 1 }) ∧
      ({ cb with totalRequests := cb.totalRequests + 1 } : CircuitBreaker).state =
        BreakerState.opened) ∧
    (now - t ≥ 30000 →
      ({ cb with totalRequests := cb.totalRequests + 1 } : CircuitBreaker).gateOpen now =
        some { cb with totalRequests := cb.totalRequests + 1,
                       state := BreakerState.halfOpen } ∧
      (cb.execute now opOk rt).2.1 = true) ∧
    (∀ cb₀ : CircuitBreaker, cb₀.state = BreakerState.halfOpen →
      (cb₀.afterExecute now true rt).state = BreakerState.closed ∧
      (cb₀.afterExecute now true rt).failureCount = 0) := by
  refine ⟨?_, ?_, ?_, ?_⟩
  · simp [paymentBreaker, CircuitBreaker.init, CircuitBreaker.afterExecute,
      CircuitBreaker.execute, CircuitBreaker.gateOpen, CircuitBreaker.onFailure,
      CircuitBreaker.shouldAttemptReset, pushResponseTime]
  · intro hlt
    have hcond : ¬ (30000 ≤ now - t) := by omega
    constructor
    · simp [CircuitBreaker.execute, CircuitBreaker.gateOpen,
        CircuitBreaker.shouldAttemptReset, hopen, hlast, hto, hcond]
    · simpa using hopen
  · intro hge
    have hcond : 30000 ≤ now - t := by omega
    constructor
    · simp [CircuitBreaker.gateOpen, hopen, CircuitBreaker.shouldAttemptReset,
        hlast, hto, hcond]
    · simp only [CircuitBreaker.execute, CircuitBreaker.gateOpen,
        CircuitBreaker.shouldAttemptReset, hopen, hlast, hto]
      simp [hcond]
      cases opOk <;> simp
  · intro cb₀ hhalf
    by_cases hop : cb₀.state = BreakerState.opened
    · rw [hhalf] at hop
      exact absurd hop (by decide)
    · simp [CircuitBreaker.afterExecute, CircuitBreaker.execute,
        CircuitBreaker.gateOpen, hop, CircuitBreaker.onSuccess, hhalf]

/-- Concrete instantiation of `circuitBreaker_state_machine_claim` for a
breaker that tripped OPEN at time 1000, probed at times below and above the
30 s reset timeout. -/
theorem circuitBreaker_state_machine_claim_witness :
    ((⟨3, 30000, BreakerState.opened, 3, 0, 3, some 1000, [5, 5, 5]⟩ :
        CircuitBreaker).state = BreakerState.opened ∧
     (⟨3, 30000, BreakerState.opened, 3, 0, 3, some 1000, [5, 5, 5]⟩ :
        CircuitBreaker).lastFailureTime = some 1000 ∧
     (⟨3, 30000, BreakerState.opened, 3, 0, 3, some 1000, [5, 5, 5]⟩ :
        CircuitBreaker).timeout = 30000) ∧
    (((paymentBreaker.afterExecute 10 false 7).afterExecute 20 false 7).afterExecute
        30 false 7).state = BreakerState.opened := by
  refine ⟨⟨rfl, rfl, rfl⟩, ?_⟩
  exact (circuitBreaker_state_machine_claim 10 20 30 7 7 7
    ⟨3, 30000, BreakerState.opened, 3, 0, 3, some 1000, [5, 5, 5]⟩
    2000 7 1000 true rfl rfl rfl).1

theorem firstSuccessIdx_none_of_all_fail (outcomes : List Bool)
    (h : outcomes.any id = false) : firstSuccessIdx outcomes = none := by
  induction outcomes with
  | nil => rfl
  | cons b bs ih =>
    simp only [List.any_cons, Bool.or_eq_false_iff, id_eq] at h
    simp [firstSuccessIdx, h.1, ih h.2]

theorem onFailure_failureCount (cb : CircuitBreaker) (now rt : Nat) :
    (cb.onFailure now rt).failureCount = cb.failureCount + 1 := by
  unfold CircuitBreaker.onFailure
  split <;> rfl

/-- C4: the composition is Breaker(Retry(Call)).  When the breaker rejects
(OPEN, reset timeout not elapsed) the retry layer is never entered — zero
attempts, zero backoff sleeps, `failureCount` untouched; and when the gate
admits the call but every inner retry attempt fails, the whole sequence
(all `outcomes.length` attempts) bumps `failureCount` by exactly one. -/
theorem breaker_outside_retry_claim
    (cb : CircuitBreaker) (now rt : Nat) (outcomes : List Bool)
    (hopen : cb.state = BreakerState.opened)
    (hnr : cb.shouldAttemptReset now = false)
    (hfail : outcomes.any id = false) :
    processWithProcessor cb now outcomes rt =
      (ExecOutcome.rejected, (0, 0),
       { cb with totalRequests := cb.totalRequests + 1 }) ∧
    (∀ cb₀ now₀ rt₀ : _, ∀ cb₂ : CircuitBreaker,
      ({ cb₀ with totalRequests := cb₀.totalRequests + 1 } :
          CircuitBreaker).gateOpen now₀ = some cb₂ →
      (processWithProcessor cb₀ now₀ outcomes rt₀).1 = ExecOutcome.failedOp ∧
      (processWithProcessor cb₀ now₀ outcomes rt₀).2.1 =
        (outcomes.length, outcomes.length - 1) ∧
      (processWithProcessor cb₀ now₀ outcomes rt₀).2.2.failureCount =
        cb₀.failureCount + 1) := by
  have hattempts : retryAttemptsUsed outcomes = outcomes.length := by
    unfold retryAttemptsUsed
    rw [firstSuccessIdx_none_of_all_fail outcomes hfail]
  constructor
  · unfold processWithProcessor CircuitBreaker.execute CircuitBreaker.gateOpen
    rcases hl : cb.lastFailureTime with _ | t₀
    · simp [hopen, CircuitBreaker.shouldAttemptReset, hl]
    · simp only [CircuitBreaker.shouldAttemptReset, hl] at hnr
      simp [hopen, CircuitBreaker.shouldAttemptReset, hl, hnr]
  · intro cb₀ now₀ rt₀ cb₂ hgate
    have hfc : cb₂.failureCount = cb₀.failureCount := by
      unfold CircuitBreaker.gateOpen at hgate
      split at hgate
      · split at hgate
        · cases hgate
          rfl
        · cases hgate
      · cases hgate
        rfl
    unfold processWithProcessor CircuitBreaker.execute
    simp only [hgate]
    simp [retrySucceeds, hfail, hattempts, onFailure_failureCount, hfc]

/-- Concrete instantiation of `breaker_outside_retry_claim`: an OPEN breaker
1 s after its last failure, and a retry sequence of three failing attempts. -/
theorem breaker_outside_retry_claim_witness :
    ((⟨3, 30000, BreakerState.opened, 3, 0, 3, some 1000, [5]⟩ :
        CircuitBreaker).state = BreakerState.opened ∧
     (⟨3, 30000, BreakerState.opened, 3, 0, 3, some 1000, [5]⟩ :
        CircuitBreaker).shouldAttemptReset 2000 = false ∧
     ([false, false, false].any id = false)) ∧
    processWithProcessor
      (⟨3, 30000, BreakerState.opened, 3, 0, 3, some 1000, [5]⟩ : CircuitBreaker)
      2000 [false, false, false] 9 =
      (ExecOutcome.rejected, (0, 0),
       (⟨3, 30000, BreakerState.opened, 3, 0, 4, some 1000, [5]⟩ :
          CircuitBreaker)) := by
  refine ⟨⟨rfl, by decide, by decide⟩, ?_⟩
  exact (breaker_outside_retry_claim
    (⟨3, 30000, BreakerState.opened, 3, 0, 3, some 1000, [5]⟩ : CircuitBreaker)
    2000 9 [false, false, false] rfl (by decide) (by decide)).1

theorem executeWithRetry_undef (n : Nat) :
    executeWithRetry JsVal.undef n =
      (Except.error "TypeError: operation is not a function", n + 1, 0) := by
  unfold executeWithRetry
  induction n with
  | zero => rfl
  | succ m ih =>
    show executeWithRetryAux JsVal.undef (m + 1 + 1) = _
    unfold executeWithRetryAux
    unfold executeWithRetry at ih
    simp [callJs, ih]

/-- C10: through the part_007 `processWithProcessor` path the retry layer's
`operation` parameter is `undefined`, so every one of the three attempts
inside `executeWithRetry` throws the invocation TypeError, the overall call
rejects with that TypeError, and the wrapped payment-processor closure is
never invoked (zero function-body runs), for every wrapped closure. -/
theorem retryPayment007_operation_undefined_claim
    (wrapped : Unit → Except String String) :
    retryPayment007 wrapped =
      (Except.error "TypeError: operation is not a function", 3, 0) ∧
    callJs JsVal.undef =
      (Except.error "TypeError: operation is not a function", 0) ∧
    (∀ n, executeWithRetry JsVal.undef n =
      (Except.error "TypeError: operation is not a function", n + 1, 0)) := by
  exact ⟨executeWithRetry_undef 2, rfl, executeWithRetry_undef⟩

/-- C5 counterexample: in the src variant with `SIMULATE_PAYMENTS=true` and
both processors failing, the submit succeeds but persists the payment with
processor `"default"`, not `"simulated"`, so the claim's "persists the payment
with processor = simulated" is false on this variant. -/
theorem simulated_processor_claim_counterexample :
    processPaymentSrc ⟨false, true, false, false⟩ [] "c1" 5 0 =
      (Except.ok "default", [⟨"c1", 5, "default", 0, "processed"⟩]) ∧
    ((processPaymentSrc ⟨false, true, false, false⟩ [] "c1" 5 0).2.map
        (fun r => r.processorType)) = ["default"] := by
  constructor <;> rfl

/-- C5 amended: when both chains fail, the part_007 variant with
`SIMULATE_PAYMENTS=true` persists with processor `"simulated"` and returns
success, while the src variant (which also fires on `NODE_ENV=development`)
persists with processor `"default"` and returns success; with no simulation
flag both variants throw (src: the `UNAVAILABLE` message, part_007: the
fallback error) and persist nothing. -/
theorem simulated_processor_claim_amended
    (env : SubmitEnv) (ledger : List PaymentRow) (cid : String) (amount : ℚ)
    (t : Nat)
    (hd : env.defaultOk = false) (hf : env.fallbackOk = false) :
    (env.simulatePayments = true →
      processPayment007 true env ledger cid amount t =
        (Except.ok "simulated",
         storePaymentLedger ledger cid amount "simulated" t)) ∧
    ((env.nodeEnvDevelopment || env.simulatePayments) = true →
      processPaymentSrc env ledger cid amount t =
        (Except.ok "default",
         storePaymentLedger ledger cid amount "default" t)) ∧
    (env.simulatePayments = false → env.nodeEnvDevelopment = false →
      processPaymentSrc env ledger cid amount t =
        (Except.error "All payment processors are unavailable", ledger) ∧
      processPayment007 true env ledger cid amount t =
        (Except.error "fallback processor error", ledger)) := by
  refine ⟨fun hs => ?_, fun hs => ?_, fun hs hv => ⟨?_, ?_⟩⟩ <;>
    simp [processPayment007, processPaymentSrc, hd, hf, *]

/-- Concrete instantiation of `simulated_processor_claim_amended` with the
simulation flag set and both processors down. -/
theorem simulated_processor_claim_amended_witness :
    ((⟨false, true, false, false⟩ : SubmitEnv).defaultOk = false ∧
     (⟨false, true, false, false⟩ : SubmitEnv).fallbackOk = false) ∧
    processPayment007 true ⟨false, true, false, false⟩ [] "c1" 5 0 =
      (Except.ok "simulated",
       storePaymentLedger [] "c1" 5 "simulated" 0) := by
  refine ⟨⟨rfl, rfl⟩, ?_⟩
  exact (simulated_processor_claim_amended ⟨false, true, false, false⟩ [] "c1" 5 0
    rfl rfl).1 rfl

/-- C2 counterexample: in the part_007 variant, on a successful default chain
with the DB answer arriving after the response (an admissible schedule, since
`dbOperation()` is not awaited), the completed ledger write does NOT precede
the cache invalidation and the response — refuting the claimed ordering at
this concrete input. -/
theorem submit_ordering_claim_counterexample :
    allPrecede isStoreComplete isRespondOrInvalidate
      (processPaymentTrace007 ⟨false, false, true, false⟩ true) = false := by
  decide

/-- C2 amended: in both variants, for every environment, the default attempt
strictly precedes any fallback attempt; in the src variant the completed
ledger write strictly precedes the response (and there is no cache
invalidation); in the part_007 variant only the INITIATION of the ledger
write is ordered before the cache invalidation and the response — its
completion is not awaited. -/
theorem submit_ordering_claim_amended :
    ∀ a b c d late : Bool,
      allPrecede (isAttempt "default") (isAttempt "fallback")
        (processPaymentTraceSrc ⟨a, b, c, d⟩) = true ∧
      allPrecede (isAttempt "default") (isAttempt "fallback")
        (processPaymentTrace007 ⟨a, b, c, d⟩ late) = true ∧
      allPrecede isStoreComplete isRespondOrInvalidate
        (processPaymentTraceSrc ⟨a, b, c, d⟩) = true ∧
      allPrecede isStoreStart isRespondOrInvalidate
        (processPaymentTrace007 ⟨a, b, c, d⟩ late) = true := by
  decide

theorem filter_eq_nil_of_all_false {α : Type} (p : α → Bool) (l : List α)
    (h : ∀ x ∈ l, p x = false) : l.filter p = [] := by
  induction l with
  | nil => rfl
  | cons x xs ih =>
    rw [List.filter_cons, h x (List.mem_cons_self x xs)]
    exact ih fun y hy => h y (List.mem_cons_of_mem x hy)

theorem list_sum_nonneg_rat (l : List ℚ) (h : ∀ x ∈ l, 0 ≤ x) : 0 ≤ l.sum := by
  induction l with
  | nil => simp
  | cons x xs ih =>
    rw [List.sum_cons]
    have hx := h x (List.mem_cons_self x xs)
    have hxs := ih fun y hy => h y (List.mem_cons_of_mem x hy)
    linarith

theorem summaryEntryFor_nonneg (ledger : List PaymentRow)
    (fromB toB : Option Nat) (proc : String)
    (hpos : ∀ r ∈ ledger, 0 ≤ r.amount) :
    0 ≤ (summaryEntryFor ledger fromB toB proc).totalRequests ∧
    0 ≤ (summaryEntryFor ledger fromB toB proc).totalAmount := by
  unfold summaryEntryFor
  refine ⟨Int.ofNat_nonneg _, ?_⟩
  apply list_sum_nonneg_rat
  intro x hx
  rcases List.mem_map.mp hx with ⟨r, hr, hrx⟩
  exact hrx ▸ hpos r (List.mem_of_mem_filter hr)

/-- C7: for every query interval (each bound optional) over a ledger whose
amounts are nonnegative (every row the dispatcher writes has a validated
positive amount), the summary carries both processor entries with
`totalRequests ≥ 0` and `totalAmount ≥ 0`, and a processor with no matching
rows gets exact zeros for both fields. -/
theorem getPaymentSummary_shape_claim (ledger : List PaymentRow)
    (fromB toB : Option Nat)
    (hpos : ∀ r ∈ ledger, 0 ≤ r.amount) :
    (0 ≤ (getPaymentSummary ledger fromB toB).sDefault.totalRequests ∧
     0 ≤ (getPaymentSummary ledger fromB toB).sDefault.totalAmount ∧
     0 ≤ (getPaymentSummary ledger fromB toB).sFallback.totalRequests ∧
     0 ≤ (getPaymentSummary ledger fromB toB).sFallback.totalAmount) ∧
    ((∀ r ∈ ledger, summaryRowFilter fromB toB "default" r = false) →
      (getPaymentSummary ledger fromB toB).sDefault = ⟨0, 0⟩) ∧
    ((∀ r ∈ ledger, summaryRowFilter fromB toB "fallback" r = false) →
      (getPaymentSummary ledger fromB toB).sFallback = ⟨0, 0⟩) := by
  obtain ⟨hd1, hd2⟩ := summaryEntryFor_nonneg ledger fromB toB "default" hpos
  obtain ⟨hf1, hf2⟩ := summaryEntryFor_nonneg ledger fromB toB "fallback" hpos
  refine ⟨⟨hd1, hd2, hf1, hf2⟩, fun hnone => ?_, fun hnone => ?_⟩ <;>
    simp [getPaymentSummary, summaryEntryFor,
      filter_eq_nil_of_all_false _ ledger hnone]

/-- Concrete instantiation of `getPaymentSummary_shape_claim`: a ledger with
one processed default payment, queried over an interval matching nothing. -/
theorem getPaymentSummary_shape_claim_witness :
    (∀ r ∈ [(⟨"c1", 10, "default", 5, "processed"⟩ : PaymentRow)], 0 ≤ r.amount) ∧
    (0 ≤ (getPaymentSummary [⟨"c1", 10, "default", 5, "processed"⟩]
        (some 100) (some 200)).sDefault.totalRequests ∧
     0 ≤ (getPaymentSummary [⟨"c1", 10, "default", 5, "processed"⟩]
        (some 100) (some 200)).sDefault.totalAmount ∧
     0 ≤ (getPaymentSummary [⟨"c1", 10, "default", 5, "processed"⟩]
        (some 100) (some 200)).sFallback.totalRequests ∧
     0 ≤ (getPaymentSummary [⟨"c1", 10, "default", 5, "processed"⟩]
        (some 100) (some 200)).sFallback.totalAmount) := by
  refine ⟨by decide, ?_⟩
  exact (getPaymentSummary_shape_claim [⟨"c1", 10, "default", 5, "processed"⟩]
    (some 100) (some 200) (by decide)).1

/-- C8 counterexample: a cached summary with negative fields is returned
as-is (no shape validation on the cache-hit path), and when the consistency
check fails on a freshly computed summary the aggregator raises the error
instead of returning a fresh result — both halves of the claim fail at these
concrete inputs. -/
theorem summary_cache_validation_claim_counterexample :
    getPaymentSummary007 (some ⟨⟨-2, -5⟩, ⟨0, 0⟩⟩) [] none none =
      Except.ok ⟨⟨-2, -5⟩, ⟨0, 0⟩⟩ ∧
    verifySummaryConsistency ⟨⟨-2, -5⟩, ⟨0, 0⟩⟩ none none = false ∧
    getPaymentSummary007 none [] (some 5) (some 3) =
      Except.error "Summary data consistency check failed" := by
  refine ⟨rfl, by decide, rfl⟩

/-- C8 amended: the part_007 aggregator returns every cache hit unvalidated,
and when the consistency check on the freshly computed summary fails it
throws `"Summary data consistency check failed"` rather than returning a
fresh result. -/
theorem summary_cache_validation_claim_amended
    (ledger : List PaymentRow) (fromB toB : Option Nat) :
    (∀ s : Summary, getPaymentSummary007 (some s) ledger fromB toB =
      Except.ok s) ∧
    (verifySummaryConsistency (getPaymentSummary ledger fromB toB) fromB toB =
        false →
      getPaymentSummary007 none ledger fromB toB =
        Except.error "Summary data consistency check failed") := by
  refine ⟨fun s => rfl, fun hfail => ?_⟩
  simp [getPaymentSummary007, hfail]

/-- Concrete instantiation of `summary_cache_validation_claim_amended` on a
query whose inverted date range fails the consistency check. -/
theorem summary_cache_validation_claim_amended_witness :
    verifySummaryConsistency (getPaymentSummary [] (some 5) (some 3))
      (some 5) (some 3) = false ∧
    getPaymentSummary007 none [] (some 5) (some 3) =
      Except.error "Summary data consistency check failed" := by
  refine ⟨by decide, ?_⟩
  exact (summary_cache_validation_claim_amended [] (some 5) (some 3)).2 (by decide)

theorem probeCalls_spacing (cs : List HCCall) (st : HCState)
    (hmono : ∀ c ∈ cs, c.now ≤ c.completion)
    (hseq : List.Chain' (fun a b => a.completion ≤ b.now) cs) :
    List.Chain' (fun a b => a.now + 5000 ≤ b.now) (probeCalls st cs) ∧
    (st.healthCache.isSome = true →
      ∀ p, (probeCalls st cs).head? = some p →
        st.lastHealthCheck + 5000 ≤ p.now) := by
  induction cs generalizing st with
  | nil => exact ⟨List.chain'_nil, fun _ p hp => by cases hp⟩
  | cons c cs ih =>
    have hmono' : ∀ x ∈ cs, x.now ≤ x.completion :=
      fun x hx => hmono x (List.mem_cons_of_mem c hx)
    have hseq' : List.Chain' (fun a b => a.completion ≤ b.now) cs :=
      hseq.tail
    have hcm : c.now ≤ c.completion := hmono c (List.mem_cons_self c cs)
    by_cases hlt : c.now - st.lastHealthCheck < 5000
    · cases hcache : st.healthCache with
      | some cached =>
        have hstep : probeCalls st (c :: cs) = probeCalls st cs := by
          simp [probeCalls, getProcessorHealth, hlt, hcache]
        obtain ⟨ihchain, ihhead⟩ := ih st hmono' hseq'
        rw [hstep]
        exact ⟨ihchain, fun _ p hp => ihhead (by rw [hcache]; rfl) p hp⟩
      | none =>
        have hstep : probeCalls st (c :: cs) =
            c :: probeCalls ⟨c.completion, some (mkHealthData c.probe
              c.responseTime c.completion)⟩ cs := by
          simp [probeCalls, getProcessorHealth, hlt, hcache, performHealthCheck]
        obtain ⟨ihchain, ihhead⟩ := ih ⟨c.completion, some (mkHealthData c.probe
          c.responseTime c.completion)⟩ hmono' hseq'
        rw [hstep]
        refine ⟨List.chain'_cons'.mpr ⟨?_, ihchain⟩, fun hs p hp => ?_⟩
        · intro b hb
          have hgap : c.completion + 5000 ≤ b.now :=
            ihhead rfl b (Option.mem_def.mp hb)
          omega
        · simp [hcache] at hs
    · have hstep : probeCalls st (c :: cs) =
          c :: probeCalls ⟨c.completion, some (mkHealthData c.probe
            c.responseTime c.completion)⟩ cs := by
        simp [probeCalls, getProcessorHealth, hlt, performHealthCheck]
      obtain ⟨ihchain, ihhead⟩ := ih ⟨c.completion, some (mkHealthData c.probe
        c.responseTime c.completion)⟩ hmono' hseq'
      rw [hstep]
      refine ⟨List.chain'_cons'.mpr ⟨?_, ihchain⟩, fun hs p hp => ?_⟩
      · intro b hb
        have hgap : c.completion + 5000 ≤ b.now :=
          ihhead rfl b (Option.mem_def.mp hb)
        omega
      · have hp' : p = c := by
          simpa using hp.symm
        subst hp'
        omega

/-- C9: whenever `getProcessorHealth` runs less than 5 s after the
processor's last probe it returns the cached snapshot without probing; and in
any sequential run from the initial state (probe settles before the next call
starts, probes take nonnegative time) any two consecutive probes are at least
`healthCheckInterval = 5000` ms apart. -/
theorem healthPoller_interval_claim
    (st : HCState) (c : HCCall) (s : Snapshot)
    (hcache : st.healthCache = some s)
    (hlt : c.now - st.lastHealthCheck < 5000) :
    getProcessorHealth st c = (s, st, false) ∧
    (∀ cs : List HCCall, (∀ x ∈ cs, x.now ≤ x.completion) →
      List.Chain' (fun a b => a.completion ≤ b.now) cs →
      List.Chain' (fun a b => a.now + 5000 ≤ b.now)
        (probeCalls HCState.init cs)) := by
  constructor
  · simp [getProcessorHealth, hlt, hcache]
  · intro cs hmono hseq
    exact (probeCalls_spacing cs HCState.init hmono hseq).1

/-- Concrete instantiation of `healthPoller_interval_claim`: a snapshot
cached 2 s ago is served from cache, and a two-call run probes 6 s apart. -/
theorem healthPoller_interval_claim_witness :
    ((⟨1000, some ⟨false, 5, 10, 1000, true⟩⟩ : HCState).healthCache =
      some ⟨false, 5, 10, 1000, true⟩ ∧
     (⟨3000, 3100, 10, ProbeResult.ok false 5⟩ : HCCall).now -
       (⟨1000, some ⟨false, 5, 10, 1000, true⟩⟩ : HCState).lastHealthCheck <
         5000) ∧
    getProcessorHealth ⟨1000, some ⟨false, 5, 10, 1000, true⟩⟩
        ⟨3000, 3100, 10, ProbeResult.ok false 5⟩ =
      (⟨false, 5, 10, 1000, true⟩, ⟨1000, some ⟨false, 5, 10, 1000, true⟩⟩,
       false) ∧
    List.Chain' (fun a b => a.now + 5000 ≤ b.now)
      (probeCalls HCState.init
        [⟨0, 100, 10, ProbeResult.ok false 5⟩,
         ⟨6000, 6100, 12, ProbeResult.ok true 7⟩]) := by
  have h := healthPoller_interval_claim
    ⟨1000, some ⟨false, 5, 10, 1000, true⟩⟩
    ⟨3000, 3100, 10, ProbeResult.ok false 5⟩
    ⟨false, 5, 10, 1000, true⟩ rfl (by decide)
  refine ⟨⟨rfl, by decide⟩, h.1, ?_⟩
  apply h.2
  · intro x hx
    simp at hx
    rcases hx with hx | hx <;> simp [hx]
  · exact List.chain'_pair.mpr (by decide)
